import Mathlib

/-!
Verification of the caching / resilience layer of the info-orbs API proxies.

The repository is a family of FastAPI proxies (`src/openweather-proxy.py`,
`src/visualcrossing-proxy.py`, `src/timezone-proxy.py`, shared helpers in
`src/common.py`).  We shallowly embed, in Lean, the pure decision logic of
those files: cache-key construction, the per-request cache/force/stale
orchestration of each proxy endpoint, the retry loop of `common.fetch_data`,
the timezone proxy's domain-expiry check `should_bypass_cache`, and the two
rate-limit exception handlers.

Modelling conventions:
* Python dicts holding the caches become association lists
  (`List (String × _)`); `d[k] = v` is `dictSet`, `d.get(k)` is
  `List.lookup`.
* `datetime` values are modelled as `Int` (a point on the UTC timeline);
  ISO-8601 strings that the code parses with `parse_iso_datetime` are
  modelled by their parse result, `Option Int`, where `none` stands for a
  missing key or an unparsable string (both reach the same `except` arm in
  the source).
* A raised `HTTPException(status, detail)` is an `Except.error` carrying
  `HttpError`.
* JSON response bodies are opaque field lists (`JsonDoc`); Python truthiness
  of a dict (`if not data`) is emptiness of the field list.
-/

namespace InfoOrbs

/-- An `HTTPException(status_code, detail)` as raised throughout the source. -/
structure HttpError where
  status : Nat
  detail : String
deriving DecidableEq, Repr

/-- An opaque JSON document (the raw upstream response body).  Python's
truthiness test `if not data` corresponds to `fields = []`. -/
structure JsonDoc where
  fields : List (String × String)
deriving DecidableEq, Repr

/-- Python dict assignment `d[k] = v`: overwrite the binding for `k` if
present, else append it. -/
def dictSet {α : Type} (m : List (String × α)) (k : String) (v : α) :
    List (String × α) :=
  match m with
  | [] => [(k, v)]
  | (k', v') :: rest =>
    if k' = k then (k, v) :: rest else (k', v') :: dictSet rest k v

/-! ### Cache keys (`get_cache_key` in openweather/visualcrossing proxies)

`get_cache_key` pops the `force` entry from the parameter dict and returns
`json.dumps(cache_params, sort_keys=True)`.  We embed the serialization:
keys sorted lexicographically, each pair rendered `"k": "v"` with the JSON
string escapes relevant here (backslash and double quote), joined by `", "`
inside braces. -/

/-- JSON string escaping as `json.dumps` performs for the characters that can
occur in these parameter values (backslash and double quote). -/
def jsonEscapeChar (c : Char) : String :=
  if c = '\\' then "\\\\"
  else if c = '"' then "\\\""
  else String.singleton c

def jsonStr (s : String) : String :=
  "\"" ++ String.join (s.data.map jsonEscapeChar) ++ "\""

/-- Lexicographic order on character lists by code point — the order Python
sorts `str` keys in. -/
def charListLt : List Char → List Char → Bool
  | [], [] => false
  | [], _ :: _ => true
  | _ :: _, [] => false
  | a :: as, b :: bs =>
    if a < b then true else if b < a then false else charListLt as bs

/-- String comparison by code point. -/
def strLt (a b : String) : Bool := charListLt a.data b.data

/-- Insert a pair into a list of pairs sorted by key (string order). -/
def insertByKey (p : String × String) :
    List (String × String) → List (String × String)
  | [] => [p]
  | q :: rest =>
    if strLt p.1 q.1 then p :: q :: rest else q :: insertByKey p rest

/-- Sort a parameter list by key, as `sort_keys=True` does. -/
def sortByKey : List (String × String) → List (String × String)
  | [] => []
  | p :: rest => insertByKey p (sortByKey rest)

/-- Embeds `json.dumps(params, sort_keys=True)` for a flat string-to-string dict. -/
def jsonDumps (params : List (String × String)) : String :=
  "\x7b" ++
    String.intercalate ", "
      ((sortByKey params).map fun p => jsonStr p.1 ++ ": " ++ jsonStr p.2) ++
  "\x7d"

/-- Function `get_cache_key` (identical in `openweather-proxy.py` and
`visualcrossing-proxy.py`): copy the params, pop `force`, dump as sorted
JSON. -/
def get_cache_key (params : List (String × String)) : String :=
  jsonDumps (params.filter fun p => p.1 ≠ "force")

/-! ### Visualcrossing request handling (`visualcrossing-proxy.py`)

`proxy_endpoint` parses `location` and `timeframe` from the URL path
(`/proxy/{location}/{timeframe}`), reads the query parameters, then builds
the `params` dict passed to `get_cache_key` from the query parameters only.
`vc_cache_key` embeds exactly the key computation of lines 74–104: the
request's path parameters are taken as arguments but, as in the source, do
not flow into the `params` dict. -/

/-- The `params` dict built at `visualcrossing-proxy.py` lines 97–103. -/
def vc_params (api_key unit_group includeParam icon_set lang : String) :
    List (String × String) :=
  [("key", api_key), ("unitGroup", unit_group), ("include", includeParam),
   ("iconSet", icon_set), ("lang", lang)]

/-- The cache key computed for a visualcrossing request with path parameters
`location`/`timeframe` and the given query parameters.  In the source the
path parameters are parsed (lines 76–81) but never added to `params`. -/
def vc_cache_key (location timeframe : String)
    (api_key unit_group includeParam icon_set lang : String) : String :=
  -- `location` and `timeframe` are bound by the endpoint but unused by the
  -- key computation, mirroring lines 97–104 of the source.
  let _ := location
  let _ := timeframe
  get_cache_key (vc_params api_key unit_group includeParam icon_set lang)

/-! ### `common.fetch_data` — the upstream client with retry (`common.py` 72–113)

Each loop iteration performs one HTTP call; we model the call's outcome at
attempt `i` by `responses i`.  `raise_for_status` turning a non-2xx status
into `httpx.HTTPStatusError` is the `httpError` constructor;
`httpx.RequestError` (network error / timeout) is `netError`.  The loop runs
`attempt` over `range(max_retries + 1)`; a `continue` is only taken when
`attempt < max_retries`, so the fuel `max_retries + 1` never runs out before
a return/raise (the fuel-exhausted arm mirrors the unreachable trailing
`raise last_error if last_error else HTTPException(502, ...)`). -/

/-- Outcome of one HTTP call inside the retry loop. -/
inductive AttemptOutcome where
  | ok (body : JsonDoc)
  | httpError (status : Nat) (text : String)
  | netError (msg : String)
deriving DecidableEq, Repr

/-- Result of `fetch_data`: the returned JSON or the raised `HTTPException`,
together with how many HTTP calls were performed. -/
inductive FetchResult where
  | success (body : JsonDoc) (attempts : Nat)
  | failure (e : HttpError) (attempts : Nat)
deriving DecidableEq, Repr

/-- The body of the `for attempt in range(max_retries + 1)` loop of
`fetch_data`, from the iteration with index `attempt` on. -/
def fetchGo (max_retries : Nat) (responses : Nat → AttemptOutcome) :
    Nat → Nat → FetchResult
  | attempt, 0 => .failure ⟨502, "Unknown proxy error"⟩ attempt
  | attempt, fuel + 1 =>
    match responses attempt with
    | .ok body => .success body (attempt + 1)
    | .httpError s text =>
      if 0 < max_retries ∧ s = 502 ∧ attempt < max_retries then
        fetchGo max_retries responses (attempt + 1) fuel
      else
        .failure ⟨s, "API error: " ++ text⟩ (attempt + 1)
    | .netError msg =>
      if 0 < max_retries ∧ attempt < max_retries then
        fetchGo max_retries responses (attempt + 1) fuel
      else
        .failure ⟨502, "Proxy error: " ++ msg⟩ (attempt + 1)

/-- Embeds `common.fetch_data` with `OPENWEATHER_MAX_RETRIES = max_retries` (the
backoff sleep is pure delay and does not affect the outcome). -/
def fetch_data (max_retries : Nat) (responses : Nat → AttemptOutcome) :
    FetchResult :=
  fetchGo max_retries responses 0 (max_retries + 1)

/-- The outcome as seen by a caller of `await fetch_data(...)`: the returned
JSON or the propagated `HTTPException`. -/
def FetchResult.toOutcome : FetchResult → Except HttpError JsonDoc
  | .success body _ => .ok body
  | .failure e _ => .error e

/-- Number of HTTP calls performed. -/
def FetchResult.attempts : FetchResult → Nat
  | .success _ n => n
  | .failure _ n => n

/-! ### Openweather proxy endpoint (`openweather-proxy.py` 60–122)

The handler's inputs: the parsed query parameters (with the defaults of
lines 64–67 already applied to `units`/`exclude`/`lang`/`cnt`), the module
configuration (`CACHE_LIFE_MINUTES`, `OPENWEATHER_DEFAULT_API_KEY`), the
current time, the outcome the upstream call would produce if performed, and
the two cache dicts.  The output: the response or raised exception, the new
cache state, and whether the upstream was called. -/

/-- The query parameters of an openweather request.  `lat`, `lon`, `appid`
are `Option` (absent) and may also be `""`; Python's `if not x` is
`strFalsy`. -/
structure OWRequest where
  lat : Option String
  lon : Option String
  units : String
  exclude : String
  lang : String
  cnt : String
  appid : Option String
  force : Bool
deriving DecidableEq, Repr

/-- Python falsiness of an optional query-parameter string: missing or
empty. -/
def strFalsy : Option String → Bool
  | none => true
  | some s => s = ""

/-- The `params` dict of `openweather-proxy.py` lines 80–88 (after the
api-key default of lines 74–78 resolved to `appid`). -/
def owParams (r : OWRequest) (appid : String) : List (String × String) :=
  [("lat", r.lat.getD ""), ("lon", r.lon.getD ""), ("units", r.units),
   ("exclude", r.exclude), ("lang", r.lang), ("cnt", r.cnt),
   ("appid", appid)]

/-- The transformed response of `transform_data`: the full body plus the
`proxy-info` block. -/
structure OWResponse where
  body : JsonDoc
  cachedResponse : Bool
  status_code : Nat
deriving DecidableEq, Repr

/-- Function `transform_data` (lines 39–51): raise 502 on a falsy body, else attach
`proxy-info` with the `cachedResponse` flag. -/
def transform_data (data : JsonDoc) (cached : Bool) :
    Except HttpError OWResponse :=
  if data.fields = [] then .error ⟨502, "Empty API response"⟩
  else .ok ⟨data, cached, 200⟩

/-- The two module-level cache dicts `weather_cache` and `cache_expiry`. -/
structure OWState where
  weather_cache : List (String × JsonDoc)
  cache_expiry : List (String × Int)
deriving DecidableEq, Repr

instance {α β : Type} [DecidableEq α] [DecidableEq β] :
    DecidableEq (Except α β)
  | .ok a, .ok b =>
    if h : a = b then .isTrue (by rw [h])
    else .isFalse (by intro hc; cases hc; exact h rfl)
  | .ok _, .error _ => .isFalse (by intro hc; cases hc)
  | .error _, .ok _ => .isFalse (by intro hc; cases hc)
  | .error a, .error b =>
    if h : a = b then .isTrue (by rw [h])
    else .isFalse (by intro hc; cases hc; exact h rfl)

/-- Result of one run of the endpoint: the response (or the propagated
`HTTPException`), the cache state afterwards, and whether the upstream API
was called. -/
structure OWResult where
  response : Except HttpError OWResponse
  state : OWState
  upstreamCalled : Bool
deriving DecidableEq, Repr

/-- The test `cache_expiry.get(cache_key, datetime.min) > datetime.utcnow()` of line
94; `datetime.min` is before any actual `now`. -/
def cacheValid (st : OWState) (key : String) (now : Int) : Bool :=
  match st.cache_expiry.lookup key with
  | some e => now < e
  | none => false

/-- Function `proxy_endpoint` of `openweather-proxy.py` (lines 60–122).
`cache_life` is `CACHE_LIFE_MINUTES`, `default_key` is
`OPENWEATHER_DEFAULT_API_KEY`, `upstream` the outcome `fetch_data` would
produce for this request, `st` the module cache state. -/
def proxy_endpoint (cache_life : Nat) (default_key : Option String)
    (now : Int) (r : OWRequest) (upstream : Except HttpError JsonDoc)
    (st : OWState) : OWResult :=
  if strFalsy r.lat || strFalsy r.lon then
    ⟨.error ⟨400, "Latitude and longitude parameters are required"⟩, st, false⟩
  else
    match (if strFalsy r.appid then default_key else r.appid) with
    | none =>
      ⟨.error ⟨400, "API key is required and no default key is configured"⟩,
       st, false⟩
    | some appid =>
      let cache_key := get_cache_key (owParams r appid)
      -- lines 92–98: cache check when enabled and not forcing refresh
      let hit : Option JsonDoc :=
        if 0 < cache_life ∧ r.force = false then
          match st.weather_cache.lookup cache_key with
          | some d =>
            if d.fields ≠ [] ∧ cacheValid st cache_key now then some d
            else none
          | none => none
        else none
      match hit with
      | some d => ⟨transform_data d true, st, false⟩
      | none =>
        -- lines 100–122: fetch fresh data
        match upstream with
        | .ok raw =>
          let st' : OWState :=
            if 0 < cache_life then
              ⟨dictSet st.weather_cache cache_key raw,
               dictSet st.cache_expiry cache_key (now + cache_life * 60)⟩
            else st
          ⟨transform_data raw false, st', true⟩
        | .error e =>
          -- lines 117–122: on HTTPException serve the cached entry unless
          -- forcing refresh, else re-raise
          match
            (if 0 < cache_life ∧ r.force = false then
              st.weather_cache.lookup cache_key
            else none) with
          | some d => ⟨transform_data d true, st, true⟩
          | none => ⟨.error e, st, true⟩

/-! ### Timezone proxy (`timezone-proxy.py`)

The payload fields that drive the cache logic.  `dstStart`/`dstEnd` are the
parse results of the ISO strings in `dstInterval` (`none` = key missing or
unparsable, both reach the `except` arm of `should_bypass_cache` /
`create_response`).  `isDayLightSavingActive = none` models the key being
absent (a `KeyError`, likewise caught). -/

structure DstInterval where
  dstStart : Option Int
  dstEnd : Option Int
deriving DecidableEq, Repr

/-- A cached timeapi.io payload.  `hasDayLightSaving = false` also covers
the key being absent or falsy; `dstInterval = none` covers absent or falsy. -/
structure TzData where
  hasDayLightSaving : Bool
  isDayLightSavingActive : Option Bool
  dstInterval : Option DstInterval
deriving DecidableEq, Repr

/-- Function `should_bypass_cache` (lines 76–88): bypass (treat as stale) exactly when
the payload has an active DST schedule whose next transition boundary is not
after `now`; any missing/unparsable piece makes it `False` via the guards or
the `except` arm. -/
def should_bypass_cache (now : Int) (d : TzData) : Bool :=
  if d.hasDayLightSaving = false then false
  else
    match d.dstInterval with
    | none => false
    | some dst =>
      match d.isDayLightSavingActive with
      | none => false  -- KeyError → except → False
      | some active =>
        match (if active then dst.dstEnd else dst.dstStart) with
        | none => false  -- missing key / parse failure → except → False
        | some t => t ≤ now  -- datetime.now(utc) >= change_time

/-- The `nextTimeZoneUpdate` field of `create_response` (lines 103–110):
absent (`none`) unless `hasDayLightSaving` and `dstInterval` are truthy;
when present, `some none` models the `except` arm setting it to `None`. -/
def nextTimeZoneUpdate (d : TzData) : Option (Option Int) :=
  if d.hasDayLightSaving = false then none
  else
    match d.dstInterval with
    | none => none
    | some dst =>
      some (match d.isDayLightSavingActive with
        | none => none
        | some active => if active then dst.dstEnd else dst.dstStart)

/-- The JSON the handler finally returns: the 200 envelope built by
`create_response`, or the error envelope built in the `except HTTPException`
arm of `get_timezone` (lines 193–202). -/
inductive TzHandlerResponse where
  | ok (data : TzData) (cachedResponse : Bool) (nextUpdate : Option (Option Int))
  | err (status : Nat) (error : String) (message : String)
deriving DecidableEq, Repr

/-- Function `create_response(data, cached)` (lines 90–112), keeping the fields the
cache logic can observe. -/
def create_response (d : TzData) (cached : Bool) : TzHandlerResponse :=
  .ok d cached (nextTimeZoneUpdate d)

/-- What `fetch_with_retry` resolves to for this request: a payload, or the
`HTTPException(status, detail)` it raises. -/
inductive TzUpstream where
  | success (d : TzData)
  | failure (status : Nat) (detail : String)
deriving DecidableEq, Repr

/-- Result of one run of `get_timezone`. -/
structure TzResult where
  response : TzHandlerResponse
  cache : List (String × TzData)
  upstreamCalled : Bool
deriving DecidableEq, Repr

/-- Lines 187–202: fetch via `fetch_with_retry`, store on success, or turn
the raised `HTTPException` into the error envelope (`api_error` iff 502). -/
def tzFetch (tz : String) (upstream : TzUpstream)
    (cache : List (String × TzData)) : TzResult :=
  match upstream with
  | .success raw => ⟨create_response raw false, dictSet cache tz raw, true⟩
  | .failure s detail =>
    ⟨.err s (if s = 502 then "api_error" else "client_error") detail,
     cache, true⟩

/-- Function `get_timezone` (lines 154–202) for an already-parsed request
(`tz?`/`force` as extracted from query params or JSON body). -/
def get_timezone (tz? : Option String) (force : Bool) (now : Int)
    (upstream : TzUpstream) (cache : List (String × TzData)) : TzResult :=
  match tz? with
  | none => ⟨.err 400 "client_error" "timeZone required", cache, false⟩
  | some tz =>
    if tz = "" then ⟨.err 400 "client_error" "timeZone required", cache, false⟩
    else
      -- lines 182–185: cache hit unless forcing or domain-expired
      match (if force then none else cache.lookup tz) with
      | some d =>
        if should_bypass_cache now d then tzFetch tz upstream cache
        else ⟨create_response d true, cache, false⟩
      | none => tzFetch tz upstream cache

/-! ### Rate-limit exception handlers

`common.create_app`'s `rate_limit_handler` (common.py 46–67) and the
timezone proxy's `rate_limit_exceeded_handler` (timezone-proxy.py 46–57). -/

/-- A JSONResponse produced by a rate-limit handler: status code, the body
fields, and the HTTP headers explicitly set. -/
structure RateLimitResponse where
  status_code : Nat
  error : String
  message : String
  limit : String
  headers : List (String × String)
deriving DecidableEq, Repr

/-- The duck-typed `exc.detail` of `common.py`'s handler: `retryAfterAttr`
models `detail.retry_after` when the attribute exists, `detailStr` the
string form checked for `"per"`. -/
structure RLDetail where
  retryAfterAttr : Option Nat
  detailStr : Option String
deriving DecidableEq, Repr

/-- The test `"per" in detail` for a Python string. -/
def containsPer (s : String) : Bool := (s.splitOn "per").length ≠ 1

/-- The expression `detail.split(":")[-1].strip()`. -/
def lastColonSegment (s : String) : String :=
  ((s.splitOn ":").getLastD s).trim

/-- Function `rate_limit_handler` of `common.py` (lines 46–67): default
`retry_after = 60` unless the detail exposes one; `limit` parsed from the
detail string when it mentions "per", else the configured default limit. -/
def rate_limit_handler (default_limit : String) (detail : RLDetail) :
    RateLimitResponse :=
  let retry_after := detail.retryAfterAttr.getD 60
  let limit :=
    match detail.detailStr with
    | some s => if containsPer s then lastColonSegment s else default_limit
    | none => default_limit
  ⟨429, "rate_limit_exceeded",
   "Try again in " ++ toString retry_after ++ " seconds", limit,
   [("Retry-After", toString retry_after), ("X-RateLimit-Limit", limit)]⟩

/-- Function `rate_limit_exceeded_handler` of `timezone-proxy.py` (lines 46–57):
builds the JSON body from `exc.detail.retry_after` / `exc.detail.limit` but
passes no `headers` argument to `JSONResponse`. -/
def rate_limit_exceeded_handler (retry_after : Nat) (limit : String) :
    RateLimitResponse :=
  ⟨429, "rate_limit_exceeded",
   "Try again in " ++ toString retry_after ++ " seconds", limit, []⟩

/-! ## Theorems -/

/-- Writing a key with `dictSet` makes it the binding `lookup` finds. -/
theorem dictSet_lookup_same {α : Type} (m : List (String × α)) (k : String) (v : α) :
    (dictSet m k v).lookup k = some v := by
  induction m with
  | nil => simp [dictSet, List.lookup]
  | cons p rest ih =>
    obtain ⟨k', v'⟩ := p
    by_cases h : k' = k
    · simp [dictSet, h, List.lookup]
    · have hne : (k == k') = false := by
        simp [beq_iff_eq]; exact fun hk => h hk.symm
      simp [dictSet, h, List.lookup, hne, ih]

/-- Any 200 response produced by `transform_data d c` carries
`cachedResponse = c`. -/
theorem transform_data_cachedResponse (d : JsonDoc) (c : Bool)
    (resp : OWResponse) (h : transform_data d c = .ok resp) :
    resp.cachedResponse = c := by
  unfold transform_data at h
  split at h
  · simp at h
  · injection h with h'
    rw [← h']

/-- C1: the claim says the cache key depends on every request parameter that
affects the upstream response, naming the requested location and timeframe.
In the visualcrossing proxy the upstream URL is
`{base}/{location}/{timeframe}` but the key is computed from the query
parameters only: two requests for different locations and timeframes with
the same query parameters get the identical cache key, so one location's
cached weather is served for the other. -/
theorem C1_vc_cache_key_ignores_location :
    vc_cache_key "London" "today" "K" "us" "days,current" "icons1" "en" =
      vc_cache_key "Paris" "next7days" "K" "us" "days,current" "icons1" "en" ∧
    ("London" : String) ≠ "Paris" ∧ ("today" : String) ≠ "next7days" := by
  exact ⟨rfl, by decide, by decide⟩

/-- C2 counterexample: in the timezone proxy, with `force` false, a cache
entry present for `America/New_York` (domain-expired, so the upstream is
consulted) and the upstream failing, the handler returns the 502 error
envelope — not the cached payload annotated `cachedResponse=true` that the
claim promises. -/
theorem C2_timezone_no_stale_fallback :
    (get_timezone (some "America/New_York") false 200
      (.failure 502 "Proxy error: boom")
      [("America/New_York", ⟨true, some true, some ⟨some 0, some 100⟩⟩)]) =
      ⟨.err 502 "api_error" "Proxy error: boom",
       [("America/New_York", ⟨true, some true, some ⟨some 0, some 100⟩⟩)],
       true⟩ ∧
    (List.lookup "America/New_York"
      [("America/New_York",
        (⟨true, some true, some ⟨some 0, some 100⟩⟩ : TzData))]).isSome = true := by
  exact ⟨by decide, by decide⟩

/-- C2 amended: in the weather proxies (openweather; visualcrossing is the
same code), for a valid request with `force` false and caching enabled, if a
non-fresh, non-empty entry exists under the request's cache key and the
upstream call fails, the handler returns the cached payload annotated
`cachedResponse=true` after calling the upstream, instead of propagating the
failure.  (The timezone proxy instead propagates the failure.) -/
theorem C2_weather_stale_fallback (cache_life : Nat)
    (default_key : Option String) (now : Int) (r : OWRequest) (e : HttpError)
    (st : OWState) (d : JsonDoc) (appid : String)
    (hcl : 0 < cache_life) (hforce : r.force = false)
    (hlat : strFalsy r.lat = false) (hlon : strFalsy r.lon = false)
    (hkey : (if strFalsy r.appid then default_key else r.appid) = some appid)
    (hd : st.weather_cache.lookup (get_cache_key (owParams r appid)) = some d)
    (hne : d.fields ≠ [])
    (hstale : cacheValid st (get_cache_key (owParams r appid)) now = false) :
    (proxy_endpoint cache_life default_key now r (.error e) st).response =
      .ok ⟨d, true, 200⟩ ∧
    (proxy_endpoint cache_life default_key now r (.error e) st).upstreamCalled
      = true := by
  simp only [proxy_endpoint, hlat, hlon, Bool.or_self, Bool.false_eq_true,
    if_false, hkey, hforce, hd, hstale, hcl, and_true, true_and]
  simp [transform_data, hne, hstale]

/-- C2 witness: a concrete stale-fallback run of the openweather endpoint. -/
theorem C2_weather_stale_fallback_w :
    (proxy_endpoint 15 none 0
      ⟨some "1", some "2", "imperial", "m", "en", "3", some "K", false⟩
      (.error ⟨502, "Proxy error: x"⟩)
      ⟨[(get_cache_key (owParams
          ⟨some "1", some "2", "imperial", "m", "en", "3", some "K", false⟩ "K"),
         ⟨[("temp", "70")]⟩)], []⟩).response =
      .ok ⟨⟨[("temp", "70")]⟩, true, 200⟩ ∧
    (proxy_endpoint 15 none 0
      ⟨some "1", some "2", "imperial", "m", "en", "3", some "K", false⟩
      (.error ⟨502, "Proxy error: x"⟩)
      ⟨[(get_cache_key (owParams
          ⟨some "1", some "2", "imperial", "m", "en", "3", some "K", false⟩ "K"),
         ⟨[("temp", "70")]⟩)], []⟩).upstreamCalled = true :=
  C2_weather_stale_fallback 15 none 0
    ⟨some "1", some "2", "imperial", "m", "en", "3", some "K", false⟩
    ⟨502, "Proxy error: x"⟩
    ⟨[(get_cache_key (owParams
        ⟨some "1", some "2", "imperial", "m", "en", "3", some "K", false⟩ "K"),
       ⟨[("temp", "70")]⟩)], []⟩
    ⟨[("temp", "70")]⟩ "K"
    (by decide) rfl rfl rfl rfl (by decide) (by decide) (by decide)

/-- C3: for a valid openweather request with `force=true` whose upstream
call fails, the endpoint re-raises the upstream failure unchanged, leaves
the cache untouched, and serves no cached payload — for every prior cache
state, including ones holding an entry for the request's key. -/
theorem C3_force_failure_surfaces (cache_life : Nat)
    (default_key : Option String) (now : Int) (r : OWRequest) (e : HttpError)
    (st : OWState) (appid : String)
    (hforce : r.force = true)
    (hlat : strFalsy r.lat = false) (hlon : strFalsy r.lon = false)
    (hkey : (if strFalsy r.appid then default_key else r.appid) = some appid) :
    proxy_endpoint cache_life default_key now r (.error e) st =
      ⟨.error e, st, true⟩ := by
  simp [proxy_endpoint, hlat, hlon, hkey, hforce]

/-- C3 witness: a concrete forced-refresh failure with an entry in cache. -/
theorem C3_force_failure_surfaces_w :
    proxy_endpoint 15 none 0
      ⟨some "1", some "2", "imperial", "m", "en", "3", some "K", true⟩
      (.error ⟨502, "Proxy error: x"⟩)
      ⟨[(get_cache_key (owParams
          ⟨some "1", some "2", "imperial", "m", "en", "3", some "K", true⟩ "K"),
         ⟨[("temp", "70")]⟩)], []⟩ =
      ⟨.error ⟨502, "Proxy error: x"⟩,
       ⟨[(get_cache_key (owParams
           ⟨some "1", some "2", "imperial", "m", "en", "3", some "K", true⟩ "K"),
          ⟨[("temp", "70")]⟩)], []⟩, true⟩ :=
  C3_force_failure_surfaces 15 none 0
    ⟨some "1", some "2", "imperial", "m", "en", "3", some "K", true⟩
    ⟨502, "Proxy error: x"⟩
    ⟨[(get_cache_key (owParams
        ⟨some "1", some "2", "imperial", "m", "en", "3", some "K", true⟩ "K"),
       ⟨[("temp", "70")]⟩)], []⟩
    "K" rfl rfl rfl rfl

/-- C4 counterexample: an upstream 404 (a permanent client error) reaching
the openweather endpoint while a cache entry exists and `force` is false is
answered with the cached payload (`cachedResponse=true`), i.e. the 4xx is
masked by the stale cache, contradicting the claim's "never masked". -/
theorem C4_client_error_masked_by_cache :
    (proxy_endpoint 15 none 0
      ⟨some "1", some "2", "imperial", "m", "en", "3", some "K", false⟩
      (.error ⟨404, "API error: not found"⟩)
      ⟨[(get_cache_key (owParams
          ⟨some "1", some "2", "imperial", "m", "en", "3", some "K", false⟩ "K"),
         ⟨[("temp", "70")]⟩)], []⟩).response =
      .ok ⟨⟨[("temp", "70")]⟩, true, 200⟩ := by
  decide

/-- C4 amended: a 4xx upstream error is never retried by `fetch_data` — the
first non-502 HTTP error is surfaced at once, after exactly one call, with
the upstream's own status code; and the endpoint surfaces it unmasked
whenever no cache entry exists for the key (or `force=true`, see C3).  It
is, however, masked by the cached payload when an entry exists and `force`
is false. -/
theorem C4_client_error_not_retried :
    (∀ (max_retries : Nat) (responses : Nat → AttemptOutcome) (s : Nat)
       (t : String), responses 0 = .httpError s t → s ≠ 502 →
       fetch_data max_retries responses = .failure ⟨s, "API error: " ++ t⟩ 1) ∧
    (∀ (cache_life : Nat) (default_key : Option String) (now : Int)
       (r : OWRequest) (e : HttpError) (st : OWState) (appid : String),
       strFalsy r.lat = false → strFalsy r.lon = false →
       (if strFalsy r.appid then default_key else r.appid) = some appid →
       st.weather_cache.lookup (get_cache_key (owParams r appid)) = none →
       (proxy_endpoint cache_life default_key now r (.error e) st).response =
         .error e) := by
  constructor
  · intro max_retries responses s t h0 hs
    simp [fetch_data, fetchGo, h0, hs]
  · intro cache_life default_key now r e st appid hlat hlon hkey hnone
    simp only [proxy_endpoint, hlat, hlon, Bool.or_self, Bool.false_eq_true,
      if_false, hkey, hnone]
    cases hf : r.force <;> simp [hnone]

/-- C4 witness: the two conjuncts at concrete inputs — a 404 at attempt 0
with retries remaining is surfaced after one call, and an upstream 404 with
an empty cache is the endpoint's own response. -/
theorem C4_client_error_not_retried_w :
    fetch_data 3 (fun _ => .httpError 404 "not found") =
      .failure ⟨404, "API error: not found"⟩ 1 ∧
    (proxy_endpoint 15 none 0
      ⟨some "1", some "2", "imperial", "m", "en", "3", some "K", false⟩
      (.error ⟨404, "API error: not found"⟩) ⟨[], []⟩).response =
      .error ⟨404, "API error: not found"⟩ :=
  ⟨C4_client_error_not_retried.1 3 (fun _ => .httpError 404 "not found")
    404 "not found" rfl (by decide),
   C4_client_error_not_retried.2 15 none 0
    ⟨some "1", some "2", "imperial", "m", "en", "3", some "K", false⟩
    ⟨404, "API error: not found"⟩ ⟨[], []⟩ "K" rfl rfl rfl rfl⟩

/-- C5: domain expiry is a function of the read-time clock.  For every read
time `now` at or past the transition boundary recorded in the cached
payload (the `dstEnd`/`dstStart` the code selects by `isDayLightSavingActive`),
a non-force request for a cached timezone proceeds to the upstream call —
the entry is treated as stale even though the timezone proxy imposes no TTL
bound at all (every entry is trivially inside its TTL window). -/
theorem C5_domain_expiry_read_time (now : Int) (tz : String) (d : TzData)
    (dst : DstInterval) (active : Bool) (t : Int) (upstream : TzUpstream)
    (cache : List (String × TzData))
    (htz : tz ≠ "") (hlook : cache.lookup tz = some d)
    (hdls : d.hasDayLightSaving = true) (hdst : d.dstInterval = some dst)
    (hact : d.isDayLightSavingActive = some active)
    (ht : (if active then dst.dstEnd else dst.dstStart) = some t)
    (hpast : t ≤ now) :
    get_timezone (some tz) false now upstream cache =
      tzFetch tz upstream cache ∧
    (get_timezone (some tz) false now upstream cache).upstreamCalled = true := by
  have hbypass : should_bypass_cache now d = true := by
    simp [should_bypass_cache, hdls, hdst, hact, ht, hpast]
  have h1 : get_timezone (some tz) false now upstream cache =
      tzFetch tz upstream cache := by
    simp [get_timezone, htz, hlook, hbypass]
  refine ⟨h1, ?_⟩
  rw [h1]
  cases upstream <;> rfl

/-- C5 witness: a cached New York payload whose next transition (`dstEnd`,
since DST is active) is at time 100 is bypassed at read time 200. -/
theorem C5_domain_expiry_read_time_w :
    get_timezone (some "America/New_York") false 200
      (.success ⟨false, none, none⟩)
      [("America/New_York", ⟨true, some true, some ⟨some 0, some 100⟩⟩)] =
      tzFetch "America/New_York" (.success ⟨false, none, none⟩)
        [("America/New_York", ⟨true, some true, some ⟨some 0, some 100⟩⟩)] ∧
    (get_timezone (some "America/New_York") false 200
      (.success ⟨false, none, none⟩)
      [("America/New_York",
        ⟨true, some true, some ⟨some 0, some 100⟩⟩)]).upstreamCalled = true :=
  C5_domain_expiry_read_time 200 "America/New_York"
    ⟨true, some true, some ⟨some 0, some 100⟩⟩ ⟨some 0, some 100⟩ true 100
    (.success ⟨false, none, none⟩)
    [("America/New_York", ⟨true, some true, some ⟨some 0, some 100⟩⟩)]
    (by decide) (by decide) rfl rfl rfl rfl (by decide)

/-- C6: with `CACHE_LIFE_MINUTES = 0` caching is fully disabled in the
openweather endpoint: the cache state is returned unchanged by every
request (nothing is ever stored), every 200 response carries
`cachedResponse=false` (neither the hit path nor the stale-fallback path
ever serves a cached payload), and every valid request reaches the
upstream call. -/
theorem C6_ttl_zero_disables_cache (default_key : Option String) (now : Int)
    (r : OWRequest) (upstream : Except HttpError JsonDoc) (st : OWState) :
    (proxy_endpoint 0 default_key now r upstream st).state = st ∧
    (∀ resp, (proxy_endpoint 0 default_key now r upstream st).response =
      .ok resp → resp.cachedResponse = false) ∧
    (strFalsy r.lat = false → strFalsy r.lon = false →
     (if strFalsy r.appid then default_key else r.appid).isSome →
     (proxy_endpoint 0 default_key now r upstream st).upstreamCalled = true) := by
  by_cases hlat : strFalsy r.lat = true
  · simp [proxy_endpoint, hlat]
  · by_cases hlon : strFalsy r.lon = true
    · simp [proxy_endpoint, hlat, hlon]
    · simp only [Bool.not_eq_true] at hlat hlon
      cases hkey : (if strFalsy r.appid then default_key else r.appid) with
      | none => simp [proxy_endpoint, hlat, hlon, hkey]
      | some appid =>
        cases upstream with
        | ok raw =>
          refine ⟨?_, ?_, ?_⟩
          · simp [proxy_endpoint, hlat, hlon, hkey]
          · intro resp h
            have hresp : transform_data raw false = .ok resp := by
              simpa [proxy_endpoint, hlat, hlon, hkey] using h
            exact transform_data_cachedResponse raw false resp hresp
          · intro _ _ _
            simp [proxy_endpoint, hlat, hlon, hkey]
        | error e => simp [proxy_endpoint, hlat, hlon, hkey]

/-- C6 witness: a concrete request with TTL 0, a successful upstream call,
and a prior cache state holding an entry for the very same key: the state
is unchanged, the response is fresh, the upstream was called. -/
theorem C6_ttl_zero_disables_cache_w :
    (proxy_endpoint 0 none 0
      ⟨some "1", some "2", "imperial", "m", "en", "3", some "K", false⟩
      (.ok ⟨[("temp", "65")]⟩)
      ⟨[(get_cache_key (owParams
          ⟨some "1", some "2", "imperial", "m", "en", "3", some "K", false⟩ "K"),
         ⟨[("temp", "70")]⟩)], []⟩).state =
      ⟨[(get_cache_key (owParams
          ⟨some "1", some "2", "imperial", "m", "en", "3", some "K", false⟩ "K"),
         ⟨[("temp", "70")]⟩)], []⟩ ∧
    (∀ resp, (proxy_endpoint 0 none 0
      ⟨some "1", some "2", "imperial", "m", "en", "3", some "K", false⟩
      (.ok ⟨[("temp", "65")]⟩)
      ⟨[(get_cache_key (owParams
          ⟨some "1", some "2", "imperial", "m", "en", "3", some "K", false⟩ "K"),
         ⟨[("temp", "70")]⟩)], []⟩).response = .ok resp →
      resp.cachedResponse = false) ∧
    (proxy_endpoint 0 none 0
      ⟨some "1", some "2", "imperial", "m", "en", "3", some "K", false⟩
      (.ok ⟨[("temp", "65")]⟩)
      ⟨[(get_cache_key (owParams
          ⟨some "1", some "2", "imperial", "m", "en", "3", some "K", false⟩ "K"),
         ⟨[("temp", "70")]⟩)], []⟩).upstreamCalled = true := by
  obtain ⟨h1, h2, h3⟩ := C6_ttl_zero_disables_cache none 0
    ⟨some "1", some "2", "imperial", "m", "en", "3", some "K", false⟩
    (.ok ⟨[("temp", "65")]⟩)
    ⟨[(get_cache_key (owParams
        ⟨some "1", some "2", "imperial", "m", "en", "3", some "K", false⟩ "K"),
       ⟨[("temp", "70")]⟩)], []⟩
  exact ⟨h1, h2, h3 rfl rfl (by decide)⟩

/-- C7: with caching enabled, `force=true` on a valid openweather request
skips the cache read (the result equals the fresh path for every prior
cache state, even one holding a fresh entry for this key), unconditionally
overwrites the entry for the request's key with the new payload, sets its
expiry to `now + CACHE_LIFE_MINUTES` (in seconds), and annotates the
response `cachedResponse=false`. -/
theorem C7_force_bypasses_read_not_write (cache_life : Nat)
    (default_key : Option String) (now : Int) (r : OWRequest) (raw : JsonDoc)
    (st : OWState) (appid : String)
    (hcl : 0 < cache_life) (hforce : r.force = true)
    (hlat : strFalsy r.lat = false) (hlon : strFalsy r.lon = false)
    (hkey : (if strFalsy r.appid then default_key else r.appid) = some appid)
    (hraw : raw.fields ≠ []) :
    proxy_endpoint cache_life default_key now r (.ok raw) st =
      ⟨.ok ⟨raw, false, 200⟩,
       ⟨dictSet st.weather_cache (get_cache_key (owParams r appid)) raw,
        dictSet st.cache_expiry (get_cache_key (owParams r appid))
          (now + cache_life * 60)⟩, true⟩ ∧
    (proxy_endpoint cache_life default_key now r (.ok raw)
        st).state.weather_cache.lookup (get_cache_key (owParams r appid)) =
      some raw := by
  have h1 : proxy_endpoint cache_life default_key now r (.ok raw) st =
      ⟨.ok ⟨raw, false, 200⟩,
       ⟨dictSet st.weather_cache (get_cache_key (owParams r appid)) raw,
        dictSet st.cache_expiry (get_cache_key (owParams r appid))
          (now + cache_life * 60)⟩, true⟩ := by
    simp [proxy_endpoint, hlat, hlon, hkey, hforce, hcl, transform_data, hraw]
  refine ⟨h1, ?_⟩
  rw [h1]
  exact dictSet_lookup_same _ _ _

/-- C7 witness: a concrete forced refresh over a cache that already holds a
fresh entry for the key: the lookup is skipped and the entry overwritten. -/
theorem C7_force_bypasses_read_not_write_w :
    proxy_endpoint 15 none 0
      ⟨some "1", some "2", "imperial", "m", "en", "3", some "K", true⟩
      (.ok ⟨[("temp", "65")]⟩)
      ⟨[(get_cache_key (owParams
          ⟨some "1", some "2", "imperial", "m", "en", "3", some "K", true⟩ "K"),
         ⟨[("temp", "70")]⟩)],
       [(get_cache_key (owParams
          ⟨some "1", some "2", "imperial", "m", "en", "3", some "K", true⟩ "K"),
         1000)]⟩ =
      ⟨.ok ⟨⟨[("temp", "65")]⟩, false, 200⟩,
       ⟨dictSet [(get_cache_key (owParams
           ⟨some "1", some "2", "imperial", "m", "en", "3", some "K", true⟩ "K"),
          (⟨[("temp", "70")]⟩ : JsonDoc))]
         (get_cache_key (owParams
           ⟨some "1", some "2", "imperial", "m", "en", "3", some "K", true⟩ "K"))
         ⟨[("temp", "65")]⟩,
        dictSet [(get_cache_key (owParams
           ⟨some "1", some "2", "imperial", "m", "en", "3", some "K", true⟩ "K"),
          (1000 : Int))]
         (get_cache_key (owParams
           ⟨some "1", some "2", "imperial", "m", "en", "3", some "K", true⟩ "K"))
         (0 + 15 * 60)⟩, true⟩ ∧
    (proxy_endpoint 15 none 0
      ⟨some "1", some "2", "imperial", "m", "en", "3", some "K", true⟩
      (.ok ⟨[("temp", "65")]⟩)
      ⟨[(get_cache_key (owParams
          ⟨some "1", some "2", "imperial", "m", "en", "3", some "K", true⟩ "K"),
         ⟨[("temp", "70")]⟩)],
       [(get_cache_key (owParams
          ⟨some "1", some "2", "imperial", "m", "en", "3", some "K", true⟩ "K"),
         1000)]⟩).state.weather_cache.lookup
      (get_cache_key (owParams
        ⟨some "1", some "2", "imperial", "m", "en", "3", some "K", true⟩ "K")) =
      some ⟨[("temp", "65")]⟩ :=
  C7_force_bypasses_read_not_write 15 none 0
    ⟨some "1", some "2", "imperial", "m", "en", "3", some "K", true⟩
    ⟨[("temp", "65")]⟩
    ⟨[(get_cache_key (owParams
        ⟨some "1", some "2", "imperial", "m", "en", "3", some "K", true⟩ "K"),
       ⟨[("temp", "70")]⟩)],
     [(get_cache_key (owParams
        ⟨some "1", some "2", "imperial", "m", "en", "3", some "K", true⟩ "K"),
       1000)]⟩
    "K" (by decide) rfl rfl rfl rfl (by decide)

/-- C8 counterexample: an upstream 429 at attempt 0 with `max_retries = 3`
(so attempts remain, and the next attempt would have succeeded) is surfaced
immediately after a single call — `fetch_data` does not retry rate-limit
responses, contradicting the claim that 429 is always in the retryable
set. -/
theorem C8_429_not_retried :
    fetch_data 3
      (fun i => if i = 0 then .httpError 429 "rate limited"
        else .ok ⟨[("a", "b")]⟩) =
      .failure ⟨429, "API error: rate limited"⟩ 1 := by
  decide

/-- C8 amended: the retryable upstream failures of `fetch_data` are exactly
the 502 status and network request errors; any other HTTP error status —
429 in particular — is surfaced immediately after one call, while a 502 or
a network error with attempts remaining leads to the next loop iteration. -/
theorem C8_retry_only_502 :
    (∀ (max_retries : Nat) (responses : Nat → AttemptOutcome) (t : String),
      responses 0 = .httpError 429 t →
      fetch_data max_retries responses =
        .failure ⟨429, "API error: " ++ t⟩ 1) ∧
    (∀ (max_retries : Nat) (responses : Nat → AttemptOutcome) (t : String),
      responses 0 = .httpError 502 t → 0 < max_retries →
      fetch_data max_retries responses = fetchGo max_retries responses 1 max_retries) ∧
    (∀ (max_retries : Nat) (responses : Nat → AttemptOutcome) (m : String),
      responses 0 = .netError m → 0 < max_retries →
      fetch_data max_retries responses = fetchGo max_retries responses 1 max_retries) := by
  refine ⟨?_, ?_, ?_⟩
  · intro max_retries responses t h0
    simp [fetch_data, fetchGo, h0]
  · intro max_retries responses t h0 hmr
    simp [fetch_data, fetchGo, h0, hmr]
  · intro max_retries responses m h0 hmr
    simp [fetch_data, fetchGo, h0, hmr]

/-- C8 witness: the three conjuncts at concrete inputs — a first-attempt
429 surfaced at once, and a first-attempt 502 / network error continuing to
attempt 1. -/
theorem C8_retry_only_502_w :
    fetch_data 2 (fun _ => .httpError 429 "slow down") =
      .failure ⟨429, "API error: slow down"⟩ 1 ∧
    fetch_data 2 (fun _ => .httpError 502 "bad gw") =
      fetchGo 2 (fun _ => .httpError 502 "bad gw") 1 2 ∧
    fetch_data 2 (fun _ => .netError "timeout") =
      fetchGo 2 (fun _ => .netError "timeout") 1 2 :=
  ⟨C8_retry_only_502.1 2 (fun _ => .httpError 429 "slow down") "slow down"
    rfl,
   C8_retry_only_502.2.1 2 (fun _ => .httpError 502 "bad gw") "bad gw" rfl
    (by decide),
   C8_retry_only_502.2.2 2 (fun _ => .netError "timeout") "timeout" rfl
    (by decide)⟩

/-- C9 counterexample: the timezone proxy's rate-limit handler builds the
429 body but passes no headers to `JSONResponse`, so the response carries
no `Retry-After` header, contradicting the claim that every denial carries
one. -/
theorem C9_timezone_handler_no_retry_after :
    (rate_limit_exceeded_handler 60 "1000 per 1 minute").headers.lookup
      "Retry-After" = none ∧
    (rate_limit_exceeded_handler 60 "1000 per 1 minute").status_code = 429 := by
  exact ⟨rfl, rfl⟩

/-- C9 amended: every denial response has status 429 with body fields
`error = "rate_limit_exceeded"`, a retry-hint message, and the effective
limit string (never a generic 500); the shared `common.py` handler
additionally sets a `Retry-After` header with the wait in seconds, but the
timezone proxy's own handler sets no headers at all. -/
theorem C9_rate_limit_response_shape (default_limit : String)
    (detail : RLDetail) (retry_after : Nat) (tz_limit : String) :
    (rate_limit_handler default_limit detail).status_code = 429 ∧
    (rate_limit_handler default_limit detail).error = "rate_limit_exceeded" ∧
    (rate_limit_handler default_limit detail).message =
      "Try again in " ++ toString (detail.retryAfterAttr.getD 60) ++
        " seconds" ∧
    (rate_limit_handler default_limit detail).headers.lookup "Retry-After" =
      some (toString (detail.retryAfterAttr.getD 60)) ∧
    (rate_limit_exceeded_handler retry_after tz_limit).status_code = 429 ∧
    (rate_limit_exceeded_handler retry_after tz_limit).error =
      "rate_limit_exceeded" ∧
    (rate_limit_exceeded_handler retry_after tz_limit).message =
      "Try again in " ++ toString retry_after ++ " seconds" ∧
    (rate_limit_exceeded_handler retry_after tz_limit).limit = tz_limit ∧
    (rate_limit_exceeded_handler retry_after tz_limit).headers = [] := by
  refine ⟨rfl, rfl, rfl, ?_, rfl, rfl, rfl, rfl, rfl⟩
  simp [rate_limit_handler, List.lookup]

/-- C10: a cached timezone payload with no usable DST data — DST flag
falsy, or no `dstInterval`, or the `isDayLightSavingActive` key missing, or
the selected transition timestamp missing/unparsable — is never bypassed:
for every read time, a non-force request for it is answered from the cache
with `cachedResponse=true`, the cache is unchanged, and the upstream is
never called. -/
theorem C10_no_dst_never_stale (now : Int) (tz : String) (d : TzData)
    (upstream : TzUpstream) (cache : List (String × TzData))
    (htz : tz ≠ "") (hlook : cache.lookup tz = some d)
    (hnodst : d.hasDayLightSaving = false ∨ d.dstInterval = none ∨
      d.isDayLightSavingActive = none ∨
      (∀ (dst : DstInterval) (active : Bool), d.dstInterval = some dst →
        d.isDayLightSavingActive = some active →
        (if active then dst.dstEnd else dst.dstStart) = none)) :
    get_timezone (some tz) false now upstream cache =
      ⟨create_response d true, cache, false⟩ := by
  have hbypass : should_bypass_cache now d = false := by
    rcases hnodst with h | h | h | h
    · simp [should_bypass_cache, h]
    · simp [should_bypass_cache, h]
    · cases hdi : d.dstInterval with
      | none => simp [should_bypass_cache, hdi]
      | some dst => simp [should_bypass_cache, hdi, h]
    · cases hdi : d.dstInterval with
      | none => simp [should_bypass_cache, hdi]
      | some dst =>
        cases ha : d.isDayLightSavingActive with
        | none => simp [should_bypass_cache, hdi, ha]
        | some active =>
          simp [should_bypass_cache, hdi, ha, h dst active hdi ha]
  simp [get_timezone, htz, hlook, hbypass]

/-- C10 witness: a cached zone with `hasDayLightSaving = false` is served
from cache at an arbitrary late read time, with the cache unchanged and no
upstream call. -/
theorem C10_no_dst_never_stale_w :
    get_timezone (some "America/Phoenix") false 1000000
      (.failure 502 "Proxy error: down")
      [("America/Phoenix", ⟨false, some false, none⟩)] =
      ⟨create_response ⟨false, some false, none⟩ true,
       [("America/Phoenix", ⟨false, some false, none⟩)], false⟩ :=
  C10_no_dst_never_stale 1000000 "America/Phoenix" ⟨false, some false, none⟩
    (.failure 502 "Proxy error: down")
    [("America/Phoenix", ⟨false, some false, none⟩)]
    (by decide) (by decide) (Or.inl rfl)

end InfoOrbs
